import Mathlib

/-!
Verification development for the greentic-mcp repository.

The definitions below are a shallow embedding of the Rust sources:
  * `Json` models `serde_json::Value` (numbers carried as integers; no claim
    below depends on float-valued JSON numbers).
  * namespace `Mcp` models the WIT types of `wasix:mcp/router@25.6.18` shared
    by `crates/mcp-exec/src/router.rs` and `crates/mcp-adapter/src/lib.rs`.
  * namespace `RouterCore` embeds `crates/mcp-exec/src/router.rs`.
  * namespace `Runner` embeds `crates/mcp-exec/src/runner.rs`.
  * namespace `Adapter` embeds `crates/mcp-adapter/src/lib.rs`.
  * namespace `Cli` embeds `crates/mcp-exec/src/bin/greentic-mcp-exec.rs`.
  * namespace `PathSafety` embeds `crates/mcp-exec/src/path_safety.rs`.
External effects (wasmtime instantiation, the network, the filesystem, the
serde_json parser) are modelled as explicit oracle parameters; everything the
Rust code itself computes is embedded as executable Lean functions.
-/

namespace GreenticMcp

/-- Model of `serde_json::Value`. -/
inductive Json where
  | null : Json
  | bool (b : Bool) : Json
  | num (n : Int) : Json
  | str (s : String) : Json
  | arr (items : List Json) : Json
  | obj (entries : List (String × Json)) : Json
  deriving Repr

/-- Model of `Value::get(key)` on JSON objects (`None` on non-objects). -/
def Json.get : Json → String → Option Json
  | .obj entries, key => go entries key
  | _, _ => none
where
  go : List (String × Json) → String → Option Json
  | [], _ => none
  | (k, v) :: rest, key => if k = key then some v else go rest key

/-- Model of `Value::as_bool`. -/
def Json.asBool : Json → Option Bool
  | .bool b => some b
  | _ => none

/-- Model of `Value::as_object` (returning the entry list). -/
def Json.asObject : Json → Option (List (String × Json))
  | .obj entries => some entries
  | _ => none

/-- Lookup in a JSON object map, as `Map::get` in serde_json. -/
def jsonMapGet : List (String × Json) → String → Option Json
  | [], _ => none
  | (k, v) :: rest, key => if k = key then some v else jsonMapGet rest key

/-- Render an optional string the way `serde_json::json!` renders `Option<String>`. -/
def jOptStr : Option String → Json
  | some s => .str s
  | none => .null

/-- Render an optional value the way `serde_json::json!` renders `Option<T>`. -/
def jOpt {α : Type} (f : α → Json) : Option α → Json
  | some a => f a
  | none => .null

/-- Decide whether the first list is a prefix of the second. -/
def isPrefixList {α : Type} [BEq α] : List α → List α → Bool
  | [], _ => true
  | _ :: _, [] => false
  | a :: as, b :: bs => a == b && isPrefixList as bs

/-- Decide whether a character list contains `needle` as a contiguous run. -/
def charsContain (needle : List Char) : List Char → Bool
  | [] => needle.isEmpty
  | c :: rest => isPrefixList needle (c :: rest) || charsContain needle rest

/-- Model of Rust `str::contains(sub)` (substring containment). -/
def strContains (s sub : String) : Bool :=
  charsContain sub.toList s.toList

/-- The standard base64 alphabet. -/
def base64Alphabet : List Char :=
  "ABCDEFGHIJKLMNOPQRSTUVWXYZabcdefghijklmnopqrstuvwxyz0123456789+/".toList

/-- Character for a 6-bit group. -/
def base64Char (n : Nat) : Char := base64Alphabet.getD (n % 64) 'A'

/-- Model of `base64::engine::general_purpose::STANDARD.encode` on byte lists. -/
def base64Encode (bs : List Nat) : String := String.mk (go bs)
where
  go : List Nat → List Char
  | [] => []
  | [b1] => [base64Char (b1 / 4), base64Char (b1 % 4 * 16), '=', '=']
  | [b1, b2] =>
      [base64Char (b1 / 4), base64Char (b1 % 4 * 16 + b2 / 16 % 16),
       base64Char (b2 % 16 * 4), '=']
  | b1 :: b2 :: b3 :: rest =>
      [base64Char (b1 / 4), base64Char (b1 % 4 * 16 + b2 / 16 % 16),
       base64Char (b2 % 16 * 4 + b3 / 64 % 4), base64Char (b3 % 64)] ++ go rest

namespace Mcp

/-- WIT `role` enumeration used by content annotations. -/
inductive Role where
  | user : Role
  | assistant : Role
  deriving Repr, DecidableEq

/-- WIT `annotations` record (audience, priority, timestamp). The priority is
an `f32` in the interface; it is carried opaquely as an integer here because no
code under verification computes with it. -/
structure Annotations where
  audience : Option (List Role)
  priority : Option Int
  timestamp : Option String
  deriving Repr

/-- WIT `text-content`. -/
structure TextContent where
  text : String
  annotations : Option Annotations
  deriving Repr

/-- WIT `image-content` (binary payload plus MIME type). -/
structure ImageContent where
  data : List Nat
  mime_type : String
  annotations : Option Annotations
  deriving Repr

/-- WIT `audio-content` (binary payload plus MIME type). -/
structure AudioContent where
  data : List Nat
  mime_type : String
  annotations : Option Annotations
  deriving Repr

/-- WIT `resource-link-content`. -/
structure ResourceLinkContent where
  uri : String
  title : Option String
  description : Option String
  mime_type : Option String
  annotations : Option Annotations
  deriving Repr

/-- WIT `embedded-resource`. -/
structure EmbeddedResource where
  uri : String
  title : Option String
  description : Option String
  mime_type : Option String
  data : List Nat
  annotations : Option Annotations
  deriving Repr

/-- WIT `content-block` sum type. -/
inductive ContentBlock where
  | text (t : TextContent) : ContentBlock
  | image (i : ImageContent) : ContentBlock
  | audio (a : AudioContent) : ContentBlock
  | resourceLink (l : ResourceLinkContent) : ContentBlock
  | embeddedResource (r : EmbeddedResource) : ContentBlock
  deriving Repr

/-- WIT `meta-entry` (key plus JSON-carrying string value). -/
structure MetaEntry where
  key : String
  value : String
  deriving Repr

/-- WIT `progress-notification` (progress value carried opaquely). -/
structure ProgressNotice where
  progress : Int
  message : Option String
  annotations : Option Annotations
  deriving Repr

/-- WIT `tool-result`. -/
structure ToolResult where
  content : List ContentBlock
  structured_content : Option String
  progress : Option (List ProgressNotice)
  meta : Option (List MetaEntry)
  is_error : Option Bool
  deriving Repr

/-- WIT `elicitation-request`. -/
structure ElicitationRequest where
  title : Option String
  message : String
  schema : String
  annotations : Option Annotations
  meta : Option (List MetaEntry)
  deriving Repr

/-- WIT `response` sum type. -/
inductive Response where
  | completed (r : ToolResult) : Response
  | elicit (e : ElicitationRequest) : Response
  deriving Repr

/-- WIT `tool-error` sum type returned by `call-tool`. -/
inductive ToolError where
  | invalidParameters (msg : String) : ToolError
  | executionError (msg : String) : ToolError
  | schemaError (msg : String) : ToolError
  | notFound (msg : String) : ToolError
  deriving Repr

/-- WIT `tool-annotations`. -/
structure ToolAnnotations where
  read_only : Option Bool
  destructive : Option Bool
  streaming : Option Bool
  experimental : Option Bool
  deriving Repr

/-- WIT `tool` descriptor as returned by `list-tools`. -/
structure Tool where
  name : String
  title : Option String
  description : String
  input_schema : String
  output_schema : Option String
  annotations : Option ToolAnnotations
  meta : Option (List MetaEntry)
  deriving Repr

end Mcp

namespace RouterCore

open Mcp

/-- Embedding of `render_content_block` in `mcp-exec/src/router.rs`: each block
becomes a typed JSON object; the second component of the pair is always `none`
in this revision of the renderer. -/
def render_content_block : ContentBlock → Json × Option Json
  | .text t =>
      (Json.obj [("type", .str "text"), ("text", .str t.text)], none)
  | .image i =>
      (Json.obj [("type", .str "image"), ("data", .str (base64Encode i.data)),
                 ("mime_type", .str i.mime_type)], none)
  | .resourceLink l =>
      (Json.obj [("type", .str "resource"), ("uri", .str l.uri)], none)
  | .embeddedResource r =>
      (Json.obj [("type", .str "resource-embed"), ("uri", .str r.uri),
                 ("data", .str (base64Encode r.data))], none)
  | .audio a =>
      (Json.obj [("type", .str "audio"), ("data", .str (base64Encode a.data)),
                 ("mime_type", .str a.mime_type)], none)

/-- Embedding of `render_tool_result` in `mcp-exec/src/router.rs`: folds the
rendered blocks into a content list plus (always empty) structured list. -/
def render_tool_result (result : ToolResult) : Json :=
  let acc := (result.content.map render_content_block).foldl
    (fun acc cs =>
      (acc.1 ++ [cs.1],
       match cs.2 with
       | some s => acc.2 ++ [s]
       | none => acc.2))
    (([] : List Json), ([] : List Json))
  Json.obj
    [("ok", .bool true),
     ("result", Json.obj
       [("content", .arr acc.1),
        ("structured_content",
          if acc.2.isEmpty then Json.null else Json.arr acc.2)])]

/-- Embedding of `render_response` in `mcp-exec/src/router.rs`. -/
def render_response : Response → Json
  | .completed result => render_tool_result result
  | .elicit req =>
      Json.obj
        [("ok", .bool true),
         ("elicitation", Json.obj
           [("title", jOptStr req.title),
            ("message", .str req.message),
            ("schema", .str req.schema)])]

/-- Embedding of `tool_error_to_value` in `mcp-exec/src/router.rs`. -/
def tool_error_to_value (tool : String) (err : ToolError) : Json :=
  let cms : String × Int × String :=
    match err with
    | .invalidParameters msg => ("MCP_TOOL_ERROR", 400, msg)
    | .executionError msg => ("MCP_TOOL_ERROR", 500, msg)
    | .schemaError msg => ("MCP_TOOL_ERROR", 422, msg)
    | .notFound msg => ("MCP_TOOL_ERROR", 404, msg)
  Json.obj
    [("ok", .bool false),
     ("error", Json.obj
       [("code", .str cms.1),
        ("message", .str cms.2.2),
        ("status", .num cms.2.1),
        ("tool", .str tool),
        ("protocol", .str "25.06.18")])]

/-- Outcome of `McpRouter::instantiate`, supplied by the wasmtime oracle. -/
inductive InstantiateOutcome where
  | ok : InstantiateOutcome
  | failed (msg : String) : InstantiateOutcome
  deriving Repr

/-- Outcome of the guest `call-tool` export, supplied by the wasmtime oracle. -/
inductive CallToolOutcome where
  | completed (resp : Response) : CallToolOutcome
  | toolError (e : ToolError) : CallToolOutcome
  | trap (msg : String) : CallToolOutcome
  deriving Repr

/-- Oracle describing how the sandboxed component behaves under the router
dialect. `elapsed_ns` records the wall-clock duration the dispatched call
takes; the source takes no timestamp around the router attempt, so nothing in
the embedded code reads it. -/
structure RouterWorld where
  instantiate : InstantiateOutcome
  call_tool : CallToolOutcome
  elapsed_ns : Nat
  deriving Repr

/-- Embedding of `try_call_tool_router` in `mcp-exec/src/router.rs`:
instantiation failures that mention a missing export yield `none` (not a
router); other instantiation failures and traps are errors; tool results and
tool errors are rendered. -/
def try_call_tool_router (w : RouterWorld) (tool : String) :
    Except String (Option Json) :=
  match w.instantiate with
  | .failed msg =>
      if strContains msg "unknown export" || strContains msg "No such export" then
        .ok none
      else
        .error msg
  | .ok =>
      match w.call_tool with
      | .completed resp => .ok (some (render_response resp))
      | .toolError e => .ok (some (tool_error_to_value tool e))
      | .trap msg => .error msg

end RouterCore

namespace Runner

open Mcp

/-- Tenant scope (`greentic_types::TenantCtx`): env id, tenant id, optional team. -/
structure TenantCtx where
  env : String
  tenant : String
  team : Option String
  deriving Repr, DecidableEq

/-- Abstract secrets backend implementing the `SecretsStore` trait of
`mcp-exec/src/config.rs`: each operation receives the tenant scope and the
secret name and yields bytes or an error string. -/
structure SecretsBackend where
  read : TenantCtx → String → Except String (List Nat)
  write : TenantCtx → String → List Nat → Except String Unit
  delete : TenantCtx → String → Except String Unit

/-- Host-relevant fields of `StoreState` in `mcp-exec/src/runner.rs` (the
resource table, WASI context and lazily built HTTP client carry no decision
logic and are omitted). -/
structure StoreState where
  http_enabled : Bool
  secrets_store : Option SecretsBackend
  tenant : Option TenantCtx

/-- Embedding of the `HostError` struct in `mcp-exec/src/runner.rs`. -/
structure HostError where
  code : String
  message : String
  deriving Repr, DecidableEq

/-- Embedding of `HostError::unavailable`. -/
def HostError.unavailable (message : String) : HostError :=
  { code := "secrets-unavailable", message := message }

/-- Embedding of `HostError::missing_ctx`. -/
def HostError.missing_ctx : HostError :=
  { code := "missing-tenant-ctx",
    message := "tenant context is required to access secrets" }

/-- Embedding of `impl From<String> for HostError`. -/
def HostError.fromBackend (message : String) : HostError :=
  { code := "secrets-error", message := message }

/-- Embedding of `HostError::to_wire_error`. -/
def HostError.to_wire_error (e : HostError) : String :=
  e.code ++ ":" ++ e.message

/-- Embedding of `StoreState::secrets_read`: fails closed when no backend is
configured, then when no tenant scope is present, and otherwise forwards the
tenant scope and name to the backend, mapping backend errors to wire form. -/
def StoreState.secrets_read (st : StoreState) (name : String) :
    Except String (List Nat) :=
  match st.secrets_store with
  | none => .error (HostError.unavailable "no secrets store configured").to_wire_error
  | some store =>
    match st.tenant with
    | none => .error HostError.missing_ctx.to_wire_error
    | some tenant =>
      (store.read tenant name).mapError
        (fun msg => (HostError.fromBackend msg).to_wire_error)

/-- Embedding of `StoreState::secrets_write` (same fail-closed structure). -/
def StoreState.secrets_write (st : StoreState) (name : String) (bytes : List Nat) :
    Except String Unit :=
  match st.secrets_store with
  | none => .error (HostError.unavailable "no secrets store configured").to_wire_error
  | some store =>
    match st.tenant with
    | none => .error HostError.missing_ctx.to_wire_error
    | some tenant =>
      (store.write tenant name bytes).mapError
        (fun msg => (HostError.fromBackend msg).to_wire_error)

/-- Embedding of `StoreState::secrets_delete` (same fail-closed structure). -/
def StoreState.secrets_delete (st : StoreState) (name : String) :
    Except String Unit :=
  match st.secrets_store with
  | none => .error (HostError.unavailable "no secrets store configured").to_wire_error
  | some store =>
    match st.tenant with
    | none => .error HostError.missing_ctx.to_wire_error
    | some tenant =>
      (store.delete tenant name).mapError
        (fun msg => (HostError.fromBackend msg).to_wire_error)

/-- Outcome of `reqwest` sending one request: a transport failure, or a
response carrying a status code and the outcome of reading the body bytes. -/
inductive SendOutcome where
  | transportFailed (msg : String) : SendOutcome
  | response (status : Nat) (body : Except String (List Nat)) : SendOutcome

/-- Oracle for the external HTTP stack (`reqwest`): client construction,
method-byte validation, header name/value validation and request sending. -/
structure Net where
  client_build : Except String Unit
  method_valid : String → Bool
  header_name_valid : String → Bool
  header_value_valid : String → Bool
  send : String → String → List String → Option (List Nat) → SendOutcome

/-- Model of Rust `str::split_once(':')`. -/
def splitOnceColon (s : String) : Option (String × String) :=
  match s.toList.span (fun c => c ≠ ':') with
  | (_, []) => none
  | (before, _ :: rest) => some (String.mk before, String.mk rest)

/-- ASCII core of Rust `str::trim` (drop leading and trailing whitespace). -/
def rustTrim (s : String) : String :=
  String.mk (((s.toList.dropWhile isWs).reverse.dropWhile isWs).reverse)
where
  isWs (c : Char) : Bool := c == ' ' || c == '\t' || c == '\n' || c == '\r'

/-- Embedding of `apply_headers` in `mcp-exec/src/runner.rs`: each header must
split at a colon; the trimmed name and value must validate; errors are tagged
`invalid-header`, `invalid-header-name` or `invalid-header-value`. -/
def apply_headers (net : Net) : List String → Except String Unit
  | [] => .ok ()
  | header :: rest =>
    match splitOnceColon header with
    | none => .error ("invalid-header:" ++ header)
    | some (name, value) =>
      if net.header_name_valid (rustTrim name) = false then
        .error ("invalid-header-name:" ++ rustTrim name)
      else if net.header_value_valid (rustTrim value) = false then
        .error ("invalid-header-value:" ++ header)
      else
        apply_headers net rest

/-- Status range accepted by `reqwest::StatusCode::is_success` (2xx). -/
def isSuccessStatus (status : Nat) : Bool :=
  200 ≤ status && status ≤ 299

/-- Embedding of `StoreState::http_request` in `mcp-exec/src/runner.rs`:
refuses immediately with `"http-disabled"` when the flag is off; otherwise
builds the lazy client, validates method and headers, sends, and maps
non-2xx statuses and body failures to tagged error strings. -/
def StoreState.http_request (net : Net) (st : StoreState) (method url : String)
    (headers : List String) (body : Option (List Nat)) :
    Except String (List Nat) :=
  if st.http_enabled = false then .error "http-disabled"
  else
    match net.client_build with
    | .error err => .error ("http-client: " ++ err)
    | .ok _ =>
      if net.method_valid method = false then .error "invalid-method"
      else
        match apply_headers net headers with
        | .error err => .error err
        | .ok _ =>
          match net.send method url headers body with
          | .transportFailed err => .error ("request: " ++ err)
          | .response status bodyRead =>
            if isSuccessStatus status = false then
              .error ("status-" ++ toString status)
            else
              match bodyRead with
              | .error err => .error ("body: " ++ err)
              | .ok bytes => .ok bytes

/-- Error variants constructed by `mcp-exec/src/runner.rs` (the enum itself
lives in the crate's error module; variants are modelled from their
construction sites in `runner.rs`). `wasm` stands for errors converted from
wasmtime results, `jsonErr` for serde_json parse failures. -/
inductive RunnerError where
  | timeout (elapsed_ns : Nat) : RunnerError
  | internal (msg : String) : RunnerError
  | toolTransient (component : String) (msg : String) : RunnerError
  | actionNotFound (action : String) : RunnerError
  | wasm (msg : String) : RunnerError
  | jsonErr (msg : String) : RunnerError
  deriving Repr

/-- Embedding of `try_mock_json` in `mcp-exec/src/runner.rs`, taking the
outcome of the UTF-8 decode plus serde_json parse of the artifact bytes as a
parameter: a root object with `_mock_mcp_exec = true` and a `responses` object
yields `responses[action]`, or an action-not-found error when the action has
no entry; anything else yields `none`. -/
def try_mock_json (parsed : Option Json) (action : String) :
    Option (Except RunnerError Json) :=
  match parsed with
  | none => none
  | some root =>
    if ((root.get "_mock_mcp_exec").bind Json.asBool).getD false = false then
      none
    else
      match (root.get "responses").bind Json.asObject with
      | none => none
      | some responses =>
        match jsonMapGet responses action with
        | some value => some (.ok value)
        | none => some (.error (.actionNotFound action))

/-- The wasm component-model magic number required at the head of any binary
accepted by `wasmtime::component::Component::from_binary` (a necessary
condition; actual validation checks far more). -/
def wasmMagic : List Nat := [0x00, 0x61, 0x73, 0x6d]

/-- Model of the necessary magic-number condition of
`Component::from_binary`: compilation can only succeed when the bytes start
with the wasm magic. -/
def componentMagicOk (bytes : List Nat) : Bool :=
  decide (bytes.take 4 = wasmMagic)

/-- Bytes with which a serde_json document can begin: JSON whitespace
(space, tab, line feed, carriage return) or a value-start byte
(object, array, string, minus, digit, `t`, `f`, `n`). -/
def jsonLeadByte (b : Nat) : Bool :=
  b == 0x20 || b == 0x09 || b == 0x0A || b == 0x0D ||
  b == 0x7B || b == 0x5B || b == 0x22 || b == 0x2D ||
  (0x30 ≤ b && b ≤ 0x39) || b == 0x74 || b == 0x66 || b == 0x6E

/-- Outcome of one invocation of the legacy `exec` export, supplied by the
wasmtime oracle. -/
inductive LegacyCallOutcome where
  | ret (raw : String) : LegacyCallOutcome
  | trap (msg : String) : LegacyCallOutcome
  deriving Repr

/-- Oracle describing the component under the legacy exec dialect: the
outcome of `linker.instantiate` (an error message, or `none` for success),
whether the `legacy:exec/exec` interface export or the bare `exec` export is
present, the outcome of the call, and the observed wall-clock duration of the
call (the `Instant` measurement taken around `exec.call`). -/
structure LegacyWorld where
  instantiate_err : Option String
  has_interface_exec : Bool
  has_bare_exec : Bool
  call : LegacyCallOutcome
  elapsed_ns : Nat
  deriving Repr

/-- Embedding of `run_sync` in `mcp-exec/src/runner.rs`.

Parameters standing for external effects: `compiled` is whether
`Component::from_binary` succeeded (only possible when the magic-number
condition holds); `parsed` is the outcome of decoding the artifact bytes as
UTF-8 JSON; `rw`/`lw` describe the component's behaviour under the two
dispatch dialects; `parse_resp` stands for `serde_json::from_str` applied to
the legacy dialect's returned string; `wallclock_ns` is
`runtime.wallclock_timeout`. -/
def run_sync (compiled : Bool) (parsed : Option Json)
    (action component : String) (rw : RouterCore.RouterWorld)
    (lw : LegacyWorld) (wallclock_ns : Nat)
    (parse_resp : String → Option Json) : Except RunnerError Json :=
  if compiled = false then
    match try_mock_json parsed action with
    | some result => result
    | none => .error (.wasm "failed to parse WebAssembly component")
  else
    match RouterCore.try_call_tool_router rw action with
    | .error msg => .error (.wasm msg)
    | .ok (some value) => .ok value
    | .ok none =>
      match lw.instantiate_err with
      | some msg => .error (.wasm msg)
      | none =>
      if lw.has_interface_exec = false ∧ lw.has_bare_exec = false then
        .error (.wasm "no exec export")
      else
        match lw.call with
        | .trap msg =>
          if strContains msg "transient." then
            .error (.toolTransient component msg)
          else
            .error (.internal msg)
        | .ret raw =>
          if wallclock_ns < lw.elapsed_ns then
            .error (.timeout lw.elapsed_ns)
          else
            match parse_resp raw with
            | none => .error (.jsonErr "invalid response JSON")
            | some value => .ok value

end Runner

namespace Adapter

open Mcp

/-- The `PROTOCOL` constant in `mcp-adapter/src/lib.rs`. -/
def PROTOCOL : String := "25.06.18"

/-- The `Operation` enumeration in `mcp-adapter/src/lib.rs`. -/
inductive Operation where
  | list : Operation
  | call : Operation
  deriving Repr, DecidableEq

/-- The `ErrorBody` struct in `mcp-adapter/src/lib.rs`. -/
structure ErrorBody where
  code : String
  message : String
  status : Nat
  tool : Option String
  protocol : String
  details : Json
  deriving Repr

/-- The `ErrorEnvelope` struct in `mcp-adapter/src/lib.rs`. -/
structure ErrorEnvelope where
  ok : Bool
  error : ErrorBody
  deriving Repr

/-- Embedding of `config_error` in `mcp-adapter/src/lib.rs`. -/
def config_error (message : String) (tool : Option String) (details : Json) :
    ErrorEnvelope :=
  { ok := false,
    error :=
      { code := "MCP_CONFIG_ERROR", message := message, status := 400,
        tool := tool, protocol := PROTOCOL, details := details } }

/-- Embedding of `tool_error` in `mcp-adapter/src/lib.rs`. -/
def tool_error (status : Nat) (message : String) (tool : String) :
    ErrorEnvelope :=
  { ok := false,
    error :=
      { code := "MCP_TOOL_ERROR", message := message, status := status,
        tool := some tool, protocol := PROTOCOL, details := Json.null } }

/-- Embedding of `transport_error` in `mcp-adapter/src/lib.rs` (the
`RouterError` display is its message). -/
def transport_error (message : String) (tool : Option String) :
    ErrorEnvelope :=
  { ok := false,
    error :=
      { code := "MCP_ROUTER_ERROR", message := message, status := 502,
        tool := tool, protocol := PROTOCOL, details := Json.null } }

/-- The `CallFailure` enumeration in `mcp-adapter/src/lib.rs`. -/
inductive CallFailure where
  | tool (e : ToolError) : CallFailure
  | transport (msg : String) : CallFailure
  deriving Repr

/-- Embedding of `map_call_error` in `mcp-adapter/src/lib.rs`. -/
def map_call_error (err : CallFailure) (tool : String) : ErrorEnvelope :=
  match err with
  | .tool toolErr =>
    match toolErr with
    | .invalidParameters msg => tool_error 400 msg tool
    | .executionError msg => tool_error 500 msg tool
    | .schemaError msg => tool_error 422 msg tool
    | .notFound msg => tool_error 404 msg tool
  | .transport msg => transport_error msg (some tool)

/-- ASCII-lowercase a string, as Rust `str::to_ascii_lowercase`. -/
def asciiLower (s : String) : String :=
  String.mk (s.toList.map fun c =>
    if c.toNat ≥ 65 ∧ c.toNat ≤ 90 then Char.ofNat (c.toNat + 32) else c)

/-- Embedding of `parse_operation` in `mcp-adapter/src/lib.rs`: trim, ASCII
lowercase, then accept exactly `"list"` and `"call"`. -/
def parse_operation (raw : String) : Option Operation :=
  match asciiLower (Runner.rustTrim raw) with
  | "list" => some Operation.list
  | "call" => some Operation.call
  | _ => none

/-- Embedding of `resolve_operation` in `mcp-adapter/src/lib.rs`: an explicit
payload value must parse or the call fails; the `op` argument is parsed with
failures ignored; payload wins over argument wins over the implicit rule; a
resolved `call` without a tool is a configuration error. -/
def resolve_operation (from_payload : Option String) (from_op : String)
    (tool : Option String) : Except ErrorEnvelope Operation :=
  match parseExplicitPayload from_payload tool with
  | .error e => .error e
  | .ok parsed_payload =>
    let parsed_op := parse_operation from_op
    let op := (parsed_payload.or parsed_op).getD
      (if tool.isSome then Operation.call else Operation.list)
    if op = Operation.call ∧ tool.isNone then
      .error (config_error "tool is required for operation=call" none Json.null)
    else
      .ok op
where
  parseExplicitPayload (from_payload : Option String) (tool : Option String) :
      Except ErrorEnvelope (Option Operation) :=
    match from_payload with
    | none => .ok none
    | some raw =>
      match parse_operation raw with
      | none =>
        .error (config_error ("unsupported operation value: " ++ raw)
          tool Json.null)
      | some op => .ok (some op)

/-- Embedding of `ensure_object` in `mcp-adapter/src/lib.rs`: null becomes the
empty object, objects pass through, everything else is an error. -/
def ensure_object (value : Json) : Except String Json :=
  match value with
  | .null => .ok (Json.obj [])
  | .obj entries => .ok (Json.obj entries)
  | _ => .error "arguments must be an object"

/-- Embedding of `parse_json_string` in `mcp-adapter/src/lib.rs`, with the
serde_json parser supplied as the oracle `P`: parse the string as JSON, fall
back to the raw string. -/
def parse_json_string (P : String → Option Json) (raw : String) : Json :=
  (P raw).getD (.str raw)

/-- Embedding of `render_annotations` in `mcp-adapter/src/lib.rs`. -/
def render_annotations (ann : Annotations) : Json :=
  Json.obj
    [("audience",
      jOpt (fun roles => Json.arr (roles.map fun role =>
        match role with
        | Role.user => Json.str "user"
        | Role.assistant => Json.str "assistant")) ann.audience),
     ("priority", jOpt Json.num ann.priority),
     ("timestamp", jOptStr ann.timestamp)]

/-- Embedding of `meta_to_value` in `mcp-adapter/src/lib.rs`. -/
def meta_to_value (P : String → Option Json) (meta : Option (List MetaEntry)) :
    Option Json :=
  meta.map fun entries =>
    Json.obj (entries.map fun entry => (entry.key, parse_json_string P entry.value))

/-- Embedding of `render_progress` in `mcp-adapter/src/lib.rs`. -/
def render_progress (items : List ProgressNotice) : Json :=
  Json.arr (items.map fun p =>
    Json.obj
      [("progress", Json.num p.progress),
       ("message", jOptStr p.message),
       ("annotations", jOpt render_annotations p.annotations)])

/-- Embedding of the adapter's `render_content_block` in
`mcp-adapter/src/lib.rs`: returns the typed payload, the flattened message,
and the block's rendered annotations. Binary payloads (`list<u8>` in WIT)
serialize as JSON number arrays under `serde_json::json!`. -/
def render_content_block (block : ContentBlock) :
    Json × Option Json × Option Json :=
  match block with
  | .text t =>
    (Json.obj
      [("type", .str "text"), ("text", .str t.text),
       ("annotations", jOpt render_annotations t.annotations)],
     some (Json.obj [("type", .str "text"), ("text", .str t.text)]),
     t.annotations.map render_annotations)
  | .image i =>
    (Json.obj
      [("type", .str "image"), ("data", .arr (i.data.map (Json.num ∘ Int.ofNat))),
       ("mime_type", .str i.mime_type),
       ("annotations", jOpt render_annotations i.annotations)],
     some (Json.obj
       [("type", .str "image"), ("mime_type", .str i.mime_type),
        ("data", .arr (i.data.map (Json.num ∘ Int.ofNat)))]),
     i.annotations.map render_annotations)
  | .audio a =>
    (Json.obj
      [("type", .str "audio"), ("data", .arr (a.data.map (Json.num ∘ Int.ofNat))),
       ("mime_type", .str a.mime_type),
       ("annotations", jOpt render_annotations a.annotations)],
     some (Json.obj
       [("type", .str "audio"), ("mime_type", .str a.mime_type),
        ("data", .arr (a.data.map (Json.num ∘ Int.ofNat)))]),
     a.annotations.map render_annotations)
  | .resourceLink l =>
    (Json.obj
      [("type", .str "resource_link"), ("uri", .str l.uri),
       ("title", jOptStr l.title), ("description", jOptStr l.description),
       ("mime_type", jOptStr l.mime_type),
       ("annotations", jOpt render_annotations l.annotations)],
     some (Json.obj
       [("type", .str "resource_link"), ("uri", .str l.uri),
        ("title", jOptStr l.title), ("description", jOptStr l.description)]),
     l.annotations.map render_annotations)
  | .embeddedResource r =>
    (Json.obj
      [("type", .str "resource"), ("uri", .str r.uri),
       ("title", jOptStr r.title), ("description", jOptStr r.description),
       ("mime_type", jOptStr r.mime_type),
       ("data", .arr (r.data.map (Json.num ∘ Int.ofNat))),
       ("annotations", jOpt render_annotations r.annotations)],
     some (Json.obj
       [("type", .str "resource"), ("uri", .str r.uri),
        ("title", jOptStr r.title), ("description", jOptStr r.description),
        ("mime_type", jOptStr r.mime_type)]),
     r.annotations.map render_annotations)

/-- Embedding of the adapter's `render_tool_result` in
`mcp-adapter/src/lib.rs`: collects content payloads, one flattened message
per block, and lifts the first present annotation set to the result; the
envelope carries `ok`, `result`, `messages` and `protocol`. -/
def render_tool_result (P : String → Option Json) (result : ToolResult) : Json :=
  let folded := result.content.foldl
    (fun (acc : List Json × List Json × Option Json) block =>
      let rendered := render_content_block block
      (acc.1 ++ [rendered.1],
       (match rendered.2.1 with
        | some message => acc.2.1 ++ [message]
        | none => acc.2.1),
       (match acc.2.2 with
        | some a => some a
        | none => rendered.2.2)))
    (([] : List Json), ([] : List Json), (none : Option Json))
  Json.obj
    [("ok", .bool true),
     ("result", Json.obj
       [("content", .arr folded.1),
        ("structured_content",
          jOpt (parse_json_string P) result.structured_content),
        ("progress", jOpt render_progress result.progress),
        ("meta", (meta_to_value P result.meta).getD Json.null),
        ("is_error", jOpt Json.bool result.is_error),
        ("annotations", folded.2.2.getD Json.null)]),
     ("messages", Json.arr folded.2.1),
     ("protocol", .str PROTOCOL)]

/-- Embedding of `render_elicitation` in `mcp-adapter/src/lib.rs`. -/
def render_elicitation (P : String → Option Json) (req : ElicitationRequest) :
    Json :=
  Json.obj
    [("ok", .bool true),
     ("elicitation", Json.obj
       [("title", jOptStr req.title),
        ("message", .str req.message),
        ("schema", parse_json_string P req.schema),
        ("annotations", jOpt render_annotations req.annotations),
        ("meta", (meta_to_value P req.meta).getD Json.null)]),
     ("messages", Json.arr
       [Json.obj [("type", .str "text"), ("text", .str req.message)]]),
     ("protocol", .str PROTOCOL)]

/-- Embedding of `render_tool_annotations` in `mcp-adapter/src/lib.rs`. -/
def render_tool_annotations (ann : ToolAnnotations) : Json :=
  Json.obj
    [("read_only", jOpt Json.bool ann.read_only),
     ("destructive", jOpt Json.bool ann.destructive),
     ("streaming", jOpt Json.bool ann.streaming),
     ("experimental", jOpt Json.bool ann.experimental)]

/-- Embedding of `render_tool` in `mcp-adapter/src/lib.rs`. -/
def render_tool (P : String → Option Json) (tool : Tool) : Json :=
  Json.obj
    [("name", .str tool.name),
     ("title", jOptStr tool.title),
     ("description", .str tool.description),
     ("input_schema", parse_json_string P tool.input_schema),
     ("output_schema", jOpt (parse_json_string P) tool.output_schema),
     ("annotations", jOpt render_tool_annotations tool.annotations),
     ("meta", (meta_to_value P tool.meta).getD Json.null)]

/-- Embedding of `render_tool_list` in `mcp-adapter/src/lib.rs`. -/
def render_tool_list (P : String → Option Json) (tools : List Tool) : Json :=
  Json.obj
    [("ok", .bool true),
     ("result", Json.obj
       [("tools", .arr (tools.map (render_tool P))),
        ("protocol", .str PROTOCOL)])]

end Adapter

namespace Cli

/-- Flags of the `router` subcommand relevant to store construction in
`mcp-exec/src/bin/greentic-mcp-exec.rs`. -/
structure RouterCommand where
  tool : Option String
  list_tools : Bool
  enable_http : Bool
  deriving Repr

/-- HTTP flag passed to `StoreState::new` in `invoke_router`:
`cmd.enable_http && !cmd.list_tools`. -/
def invoke_router_http_enabled (cmd : RouterCommand) : Bool :=
  cmd.enable_http && !cmd.list_tools

end Cli

namespace PathSafety

/-- Filesystem path modelled as absoluteness plus a list of normal
components. -/
structure FsPath where
  absolute : Bool
  comps : List String
  deriving Repr, DecidableEq

/-- Model of `Path::join` for the cases arising in `normalize_under_root`
(an absolute right-hand side replaces the left-hand side, as in Rust). -/
def FsPath.join (p q : FsPath) : FsPath :=
  if q.absolute then q else { absolute := p.absolute, comps := p.comps ++ q.comps }

/-- Model of `Path::parent`: strip the final component; `none` at a root. -/
def FsPath.parent (p : FsPath) : Option FsPath :=
  match p.comps with
  | [] => none
  | _ :: _ => some { absolute := p.absolute, comps := p.comps.dropLast }

/-- Model of `Path::file_name`: the final component, unless the path ends in
`..` or has no components. -/
def FsPath.file_name (p : FsPath) : Option String :=
  match p.comps.getLast? with
  | none => none
  | some c => if c = ".." then none else some c

/-- Model of `Path::starts_with`: same absoluteness and component-wise
prefix. -/
def FsPath.starts_with (p base : FsPath) : Bool :=
  (p.absolute == base.absolute) && isPrefixList base.comps p.comps

/-- Filesystem oracle: `canonicalize` resolves a path (symlinks, `..`) or
fails, and `pathExists` is `Path::exists`. -/
structure Fs where
  canonicalize : FsPath → Option FsPath
  pathExists : FsPath → Bool

/-- Embedding of the `let canon = match joined.canonicalize() ...` step of
`normalize_under_root` in `mcp-exec/src/path_safety.rs`: canonicalize the
joined path, falling back to canonicalizing the parent and re-attaching the
file name when the joined path does not exist. -/
def canonicalize_joined (fs : Fs) (joined : FsPath) : Except String FsPath :=
  match fs.canonicalize joined with
  | some path => .ok path
  | none =>
    if fs.pathExists joined then .error "failed to canonicalize"
    else
      match joined.parent with
      | none => .error "path has no parent to normalize"
      | some parent =>
        match fs.canonicalize parent with
        | none => .error "failed to canonicalize"
        | some parentC =>
          match joined.file_name with
          | none => .error "path missing final component"
          | some name =>
            .ok (parentC.join { absolute := false, comps := [name] })

/-- Embedding of `normalize_under_root` in `mcp-exec/src/path_safety.rs`:
reject absolute candidates, canonicalize the root, join and canonicalize the
candidate, and reject any result that does not start with the canonicalized
root. -/
def normalize_under_root (fs : Fs) (root candidate : FsPath) :
    Except String FsPath :=
  if candidate.absolute then .error "absolute paths are not allowed"
  else
    match fs.canonicalize root with
    | none => .error "failed to canonicalize root"
    | some rootC =>
      match canonicalize_joined fs (rootC.join candidate) with
      | .error e => .error e
      | .ok canon =>
        if canon.starts_with rootC then .ok canon
        else .error "path escapes root"

end PathSafety

/-- Empty tool result used as a concrete test input. -/
def emptyToolResult : Mcp.ToolResult :=
  { content := [], structured_content := none, progress := none,
    meta := none, is_error := none }

/-- Success-envelope shape asserted by the specification: `ok` is true, the
protocol revision is present, and both `result` and `messages` fields exist. -/
def successEnvelopeClaim (j : Json) : Prop :=
  j.get "ok" = some (.bool true) ∧
  j.get "protocol" = some (.str "25.06.18") ∧
  (j.get "result").isSome = true ∧
  (j.get "messages").isSome = true

/-- Claim C1 fails on the exec core's renderer: rendering a completed router
response there yields an envelope with no `protocol` and no `messages` field. -/
theorem C1_envelope_counterexample :
    ¬ successEnvelopeClaim (RouterCore.render_response (.completed emptyToolResult)) := by
  intro h
  have h2 : (none : Option Json) = some (.str "25.06.18") := h.2.1
  exact Option.noConfusion h2

/-- Claim C1 as amended: the adapter's renderer satisfies the envelope shape
for completed responses (`ok == true`, `protocol == "25.06.18"`, `result` and
`messages` present); its elicitation envelope carries `ok`, `protocol` and
`messages` but an `elicitation` field in place of `result`; the exec core's
renderer yields `ok == true` with a `result` field but omits `protocol` and
`messages`. -/
theorem C1_envelope_amended (P : String → Option Json) (tr : Mcp.ToolResult)
    (req : Mcp.ElicitationRequest) :
    ((Adapter.render_tool_result P tr).get "ok" = some (.bool true) ∧
     (Adapter.render_tool_result P tr).get "protocol" = some (.str "25.06.18") ∧
     ((Adapter.render_tool_result P tr).get "result").isSome = true ∧
     ((Adapter.render_tool_result P tr).get "messages").isSome = true) ∧
    ((Adapter.render_elicitation P req).get "ok" = some (.bool true) ∧
     (Adapter.render_elicitation P req).get "protocol" = some (.str "25.06.18") ∧
     ((Adapter.render_elicitation P req).get "messages").isSome = true ∧
     (Adapter.render_elicitation P req).get "result" = none) ∧
    ((RouterCore.render_tool_result tr).get "ok" = some (.bool true) ∧
     ((RouterCore.render_tool_result tr).get "result").isSome = true ∧
     (RouterCore.render_tool_result tr).get "protocol" = none ∧
     (RouterCore.render_tool_result tr).get "messages" = none) :=
  ⟨⟨rfl, rfl, rfl, rfl⟩, ⟨rfl, rfl, rfl, rfl⟩, ⟨rfl, rfl, rfl, rfl⟩⟩

/-- Claim C5: the secrets host fails closed. Without a backend every
operation returns the `secrets-unavailable` wire error regardless of tenant;
with a backend but no tenant scope it returns the `missing-tenant-ctx` wire
error; with both present the backend receives exactly the supplied tenant
scope and name, backend errors mapped to `secrets-error:` form. -/
theorem C5_secrets_fail_closed (b : Runner.SecretsBackend) (t : Runner.TenantCtx)
    (he : Bool) (tOpt : Option Runner.TenantCtx) (name : String) (bytes : List Nat) :
    (Runner.StoreState.secrets_read
       { http_enabled := he, secrets_store := none, tenant := tOpt } name
       = .error "secrets-unavailable:no secrets store configured") ∧
    (Runner.StoreState.secrets_write
       { http_enabled := he, secrets_store := none, tenant := tOpt } name bytes
       = .error "secrets-unavailable:no secrets store configured") ∧
    (Runner.StoreState.secrets_delete
       { http_enabled := he, secrets_store := none, tenant := tOpt } name
       = .error "secrets-unavailable:no secrets store configured") ∧
    (Runner.StoreState.secrets_read
       { http_enabled := he, secrets_store := some b, tenant := none } name
       = .error "missing-tenant-ctx:tenant context is required to access secrets") ∧
    (Runner.StoreState.secrets_write
       { http_enabled := he, secrets_store := some b, tenant := none } name bytes
       = .error "missing-tenant-ctx:tenant context is required to access secrets") ∧
    (Runner.StoreState.secrets_delete
       { http_enabled := he, secrets_store := some b, tenant := none } name
       = .error "missing-tenant-ctx:tenant context is required to access secrets") ∧
    (Runner.StoreState.secrets_read
       { http_enabled := he, secrets_store := some b, tenant := some t } name
       = (b.read t name).mapError (fun msg => "secrets-error:" ++ msg)) ∧
    (Runner.StoreState.secrets_write
       { http_enabled := he, secrets_store := some b, tenant := some t } name bytes
       = (b.write t name bytes).mapError (fun msg => "secrets-error:" ++ msg)) ∧
    (Runner.StoreState.secrets_delete
       { http_enabled := he, secrets_store := some b, tenant := some t } name
       = (b.delete t name).mapError (fun msg => "secrets-error:" ++ msg)) :=
  ⟨rfl, rfl, rfl, rfl, rfl, rfl, rfl, rfl, rfl⟩

/-- Claim C6: with `http_enabled = false`, `http_request` returns the
`http-disabled` error for every method, URL, header list and body, whatever
the network oracle does. -/
theorem C6_http_disabled (net : Runner.Net) (st : Runner.StoreState)
    (method url : String) (headers : List String) (body : Option (List Nat))
    (h : st.http_enabled = false) :
    Runner.StoreState.http_request net st method url headers body
      = .error "http-disabled" := by
  simp [Runner.StoreState.http_request, h]

/-- Trivial network oracle used to instantiate theorems at concrete inputs. -/
def trivialNet : Runner.Net :=
  { client_build := .ok (),
    method_valid := fun _ => true,
    header_name_valid := fun _ => true,
    header_value_valid := fun _ => true,
    send := fun _ _ _ _ => .transportFailed "offline" }

/-- Witness for C6 at a concrete disabled store and request. -/
theorem C6_http_disabled_witness :
    Runner.StoreState.http_request trivialNet
      { http_enabled := false, secrets_store := none, tenant := none }
      "GET" "https://example.com" [] none = .error "http-disabled" :=
  C6_http_disabled trivialNet _ "GET" "https://example.com" [] none rfl

/-- Claim C7: a guest `tool-error` renders, in the exec core and in the
adapter alike, to an error envelope with code `MCP_TOOL_ERROR`, the called
tool name, the guest message preserved, and the status map
`InvalidParameters to 400, SchemaError to 422, NotFound to 404,
ExecutionError to 500`. -/
theorem C7_tool_error_mapping (tool msg : String) :
    (RouterCore.tool_error_to_value tool (.invalidParameters msg)
      = Json.obj [("ok", .bool false), ("error", Json.obj
          [("code", .str "MCP_TOOL_ERROR"), ("message", .str msg),
           ("status", .num 400), ("tool", .str tool),
           ("protocol", .str "25.06.18")])]) ∧
    (RouterCore.tool_error_to_value tool (.schemaError msg)
      = Json.obj [("ok", .bool false), ("error", Json.obj
          [("code", .str "MCP_TOOL_ERROR"), ("message", .str msg),
           ("status", .num 422), ("tool", .str tool),
           ("protocol", .str "25.06.18")])]) ∧
    (RouterCore.tool_error_to_value tool (.notFound msg)
      = Json.obj [("ok", .bool false), ("error", Json.obj
          [("code", .str "MCP_TOOL_ERROR"), ("message", .str msg),
           ("status", .num 404), ("tool", .str tool),
           ("protocol", .str "25.06.18")])]) ∧
    (RouterCore.tool_error_to_value tool (.executionError msg)
      = Json.obj [("ok", .bool false), ("error", Json.obj
          [("code", .str "MCP_TOOL_ERROR"), ("message", .str msg),
           ("status", .num 500), ("tool", .str tool),
           ("protocol", .str "25.06.18")])]) ∧
    (Adapter.map_call_error (.tool (.invalidParameters msg)) tool
      = { ok := false,
          error := { code := "MCP_TOOL_ERROR", message := msg, status := 400,
                     tool := some tool, protocol := "25.06.18",
                     details := Json.null } }) ∧
    (Adapter.map_call_error (.tool (.schemaError msg)) tool
      = { ok := false,
          error := { code := "MCP_TOOL_ERROR", message := msg, status := 422,
                     tool := some tool, protocol := "25.06.18",
                     details := Json.null } }) ∧
    (Adapter.map_call_error (.tool (.notFound msg)) tool
      = { ok := false,
          error := { code := "MCP_TOOL_ERROR", message := msg, status := 404,
                     tool := some tool, protocol := "25.06.18",
                     details := Json.null } }) ∧
    (Adapter.map_call_error (.tool (.executionError msg)) tool
      = { ok := false,
          error := { code := "MCP_TOOL_ERROR", message := msg, status := 500,
                     tool := some tool, protocol := "25.06.18",
                     details := Json.null } }) :=
  ⟨rfl, rfl, rfl, rfl, rfl, rfl, rfl, rfl⟩

/-- Claim C2 fails on the router dialect: at this concrete input the router
call's observed duration (2 s) exceeds the wallclock timeout (1 s), yet
`run_sync` returns the rendered value rather than a timeout error — the
post-return wallclock check only wraps the legacy exec call. -/
theorem C2_wallclock_counterexample :
    Runner.run_sync true none "echo" "comp"
      { instantiate := .ok,
        call_tool := .completed (.completed emptyToolResult),
        elapsed_ns := 2000000000 }
      { instantiate_err := none, has_interface_exec := false,
        has_bare_exec := true, call := .ret "null", elapsed_ns := 0 }
      1000000000 (fun _ => none)
      = .ok (RouterCore.render_tool_result emptyToolResult) ∧
    1000000000 < 2000000000 :=
  ⟨rfl, by norm_num⟩

/-- Claim C2 as amended: the post-return wallclock check applies only to the
legacy exec dialect — a legacy call that returns after `wallclock_timeout`
fails with a timeout error even though it returned a value, while a
router-dialect call returns its rendered response whatever its observed
duration. -/
theorem C2_wallclock_amended (parsed : Option Json) (action comp raw : String)
    (rw : RouterCore.RouterWorld) (lw : Runner.LegacyWorld) (wallclock : Nat)
    (parse_resp : String → Option Json)
    (hrouter : RouterCore.try_call_tool_router rw action = .ok none)
    (hinst : lw.instantiate_err = none)
    (hexec : lw.has_interface_exec = true ∨ lw.has_bare_exec = true)
    (hret : lw.call = .ret raw)
    (hover : wallclock < lw.elapsed_ns) :
    Runner.run_sync true parsed action comp rw lw wallclock parse_resp
      = .error (.timeout lw.elapsed_ns) ∧
    ∀ (rw2 : RouterCore.RouterWorld) (resp : Mcp.Response),
      rw2.instantiate = .ok → rw2.call_tool = .completed resp →
      Runner.run_sync true parsed action comp rw2 lw wallclock parse_resp
        = .ok (RouterCore.render_response resp) := by
  constructor
  · have hnot : ¬ (lw.has_interface_exec = false ∧ lw.has_bare_exec = false) := by
      rcases hexec with h | h <;> simp [h]
    simp [Runner.run_sync, hrouter, hinst, hret, hnot, hover]
  · intro rw2 resp hi hc
    simp [Runner.run_sync, RouterCore.try_call_tool_router, hi, hc]

/-- Witness for C2's amended theorem: a legacy call returning after 2 s under
a 1 s wallclock budget yields a timeout error. -/
theorem C2_wallclock_amended_witness :
    Runner.run_sync true none "echo" "comp"
      { instantiate := .failed "unknown export", call_tool := .trap "unused",
        elapsed_ns := 0 }
      { instantiate_err := none, has_interface_exec := true,
        has_bare_exec := false, call := .ret "null", elapsed_ns := 2000000000 }
      1000000000 (fun _ => none)
      = .error (.timeout 2000000000) :=
  (C2_wallclock_amended none "echo" "comp" "null"
    { instantiate := .failed "unknown export", call_tool := .trap "unused",
      elapsed_ns := 0 }
    { instantiate_err := none, has_interface_exec := true,
      has_bare_exec := false, call := .ret "null", elapsed_ns := 2000000000 }
    1000000000 (fun _ => none) rfl rfl (Or.inl rfl) rfl (by norm_num)).1

/-- Claim C3 fails as stated: an unknown explicit `op` argument is not fatal —
with no payload operation, `op = "frobnicate"` and no tool, resolution
falls through to the implicit rule and succeeds with `list`. -/
theorem C3_resolve_counterexample :
    Adapter.parse_operation "frobnicate" = none ∧
    Adapter.resolve_operation none "frobnicate" none
      = .ok Adapter.Operation.list :=
  ⟨rfl, rfl⟩

/-- Specification-level restatement of the amended operation-resolution rule:
a payload value must parse (case-insensitively after trimming) or the
resolution fails with a configuration error; otherwise the payload wins, then
a parseable `op` argument, then the implicit rule (`call` when a tool is
present, else `list`); an unparseable `op` argument is ignored; a resolved
`call` without a tool is a configuration error. -/
def resolve_operation_spec (from_payload : Option String) (from_op : String)
    (tool : Option String) : Except Adapter.ErrorEnvelope Adapter.Operation :=
  match from_payload with
  | some raw =>
    match Adapter.parse_operation raw with
    | none =>
      .error (Adapter.config_error ("unsupported operation value: " ++ raw)
        tool Json.null)
    | some op => finish op tool
  | none =>
    match Adapter.parse_operation from_op with
    | some op => finish op tool
    | none =>
      finish (if tool.isSome then Adapter.Operation.call else Adapter.Operation.list) tool
where
  finish (op : Adapter.Operation) (tool : Option String) :
      Except Adapter.ErrorEnvelope Adapter.Operation :=
    if op = Adapter.Operation.call ∧ tool.isNone then
      .error (Adapter.config_error "tool is required for operation=call" none Json.null)
    else
      .ok op

/-- Claim C3 as amended: `resolve_operation` coincides with the amended rule
on every input — payload wins, a parseable argument wins next, then the
implicit rule; unknown payload values and `call` without a tool fail with an
`MCP_CONFIG_ERROR` envelope; unknown argument values are ignored. -/
theorem C3_resolve_amended (from_payload : Option String) (from_op : String)
    (tool : Option String) :
    Adapter.resolve_operation from_payload from_op tool
      = resolve_operation_spec from_payload from_op tool := by
  cases from_payload with
  | none =>
    cases hop : Adapter.parse_operation from_op with
    | none =>
      simp [Adapter.resolve_operation, resolve_operation_spec,
        Adapter.resolve_operation.parseExplicitPayload,
        resolve_operation_spec.finish, hop]
    | some op =>
      simp [Adapter.resolve_operation, resolve_operation_spec,
        Adapter.resolve_operation.parseExplicitPayload,
        resolve_operation_spec.finish, hop]
  | some raw =>
    cases hraw : Adapter.parse_operation raw with
    | none =>
      simp [Adapter.resolve_operation, resolve_operation_spec,
        Adapter.resolve_operation.parseExplicitPayload,
        resolve_operation_spec.finish, hraw]
    | some op =>
      simp [Adapter.resolve_operation, resolve_operation_spec,
        Adapter.resolve_operation.parseExplicitPayload,
        resolve_operation_spec.finish, hraw]

/-- Claim C8: a trap raised by the legacy exec dialect becomes a retryable
tool-transient error exactly when its message contains the substring
`"transient."`, and an internal error otherwise. -/
theorem C8_transient_trap (parsed : Option Json) (action comp msg : String)
    (rw : RouterCore.RouterWorld) (lw : Runner.LegacyWorld) (wallclock : Nat)
    (parse_resp : String → Option Json)
    (hrouter : RouterCore.try_call_tool_router rw action = .ok none)
    (hinst : lw.instantiate_err = none)
    (hexec : lw.has_interface_exec = true ∨ lw.has_bare_exec = true)
    (htrap : lw.call = .trap msg) :
    Runner.run_sync true parsed action comp rw lw wallclock parse_resp
      = (if strContains msg "transient." then
           .error (.toolTransient comp msg)
         else
           .error (.internal msg)) := by
  have hnot : ¬ (lw.has_interface_exec = false ∧ lw.has_bare_exec = false) := by
    rcases hexec with h | h <;> simp [h]
  by_cases hc : strContains msg "transient." = true
  · simp [Runner.run_sync, hrouter, hinst, htrap, hnot, hc]
  · simp only [Bool.not_eq_true] at hc
    simp [Runner.run_sync, hrouter, hinst, htrap, hnot, hc]

/-- Witness for C8 at a concrete transient trap message. -/
theorem C8_transient_trap_witness :
    Runner.run_sync true none "echo" "comp"
      { instantiate := .failed "No such export", call_tool := .trap "unused",
        elapsed_ns := 0 }
      { instantiate_err := none, has_interface_exec := false,
        has_bare_exec := true, call := .trap "guest trap: transient. retry later",
        elapsed_ns := 0 }
      1000000000 (fun _ => none)
      = .error (.toolTransient "comp" "guest trap: transient. retry later") := by
  have h := C8_transient_trap none "echo" "comp"
    "guest trap: transient. retry later"
    { instantiate := .failed "No such export", call_tool := .trap "unused",
      elapsed_ns := 0 }
    { instantiate_err := none, has_interface_exec := false,
      has_bare_exec := true, call := .trap "guest trap: transient. retry later",
      elapsed_ns := 0 }
    1000000000 (fun _ => none) rfl rfl (Or.inr rfl) rfl
  have hc : strContains "guest trap: transient. retry later" "transient." = true := rfl
  rw [hc] at h
  simpa using h

/-- Helper: bytes that can begin a serde_json document never satisfy the
wasm component magic-number condition, since the magic starts with a zero
byte. -/
theorem jsonLead_not_wasmMagic (bytes : List Nat)
    (h : Runner.jsonLeadByte (bytes.headD 0) = true) :
    Runner.componentMagicOk bytes = false := by
  cases bytes with
  | nil => rfl
  | cons b t =>
    simp only [List.headD_cons] at h
    by_contra hmagic
    rw [Bool.not_eq_false, Runner.componentMagicOk, decide_eq_true_iff,
        Runner.wasmMagic, List.take_succ_cons, List.cons_eq_cons] at hmagic
    rw [hmagic.1] at h
    exact absurd h (by decide)

/-- Router-world fixture with arbitrary contents, used at concrete inputs. -/
def idleRouterWorld : RouterCore.RouterWorld :=
  { instantiate := .ok, call_tool := .trap "unused", elapsed_ns := 0 }

/-- Legacy-world fixture with arbitrary contents, used at concrete inputs. -/
def idleLegacyWorld : Runner.LegacyWorld :=
  { instantiate_err := none, has_interface_exec := false,
    has_bare_exec := false, call := .ret "null", elapsed_ns := 0 }

/-- Claim C4 fails as stated on a mock document that lacks a `responses`
object: the flag is true and the `ping` entry is absent, yet the execution
surfaces the compilation error instead of an action-not-found error, because
`try_mock_json` yields nothing for such a document. -/
theorem C4_mock_counterexample :
    Runner.try_mock_json (some (Json.obj [("_mock_mcp_exec", Json.bool true)])) "ping"
      = none ∧
    Runner.run_sync false (some (Json.obj [("_mock_mcp_exec", Json.bool true)]))
      "ping" "comp" idleRouterWorld idleLegacyWorld 10 (fun _ => none)
      = .error (.wasm "failed to parse WebAssembly component") :=
  ⟨rfl, rfl⟩

/-- Claim C4 as amended: for every artifact whose bytes parse as UTF-8 JSON
with top-level `_mock_mcp_exec = true` and a top-level `responses` object,
execution cannot compile the bytes as a component (the wasm magic byte can
never begin a JSON document), bypasses instantiation (the result does not
depend on the component oracles), and returns `responses[action]` when that
entry exists and an action-not-found error when it is absent. -/
theorem C4_mock_amended (bytes : List Nat) (parse : List Nat → Option Json)
    (root : Json) (responses : List (String × Json)) (action comp : String)
    (compiled : Bool) (rw : RouterCore.RouterWorld) (lw : Runner.LegacyWorld)
    (wallclock : Nat) (parse_resp : String → Option Json)
    (hserde : ∀ bs j, parse bs = some j → Runner.jsonLeadByte (bs.headD 0) = true)
    (hcompile : compiled = true → Runner.componentMagicOk bytes = true)
    (hparse : parse bytes = some root)
    (hflag : ((root.get "_mock_mcp_exec").bind Json.asBool).getD false = true)
    (hresp : (root.get "responses").bind Json.asObject = some responses) :
    Runner.run_sync compiled (parse bytes) action comp rw lw wallclock parse_resp
      = (match jsonMapGet responses action with
         | some v => .ok v
         | none => .error (.actionNotFound action)) ∧
    ∀ (rw2 : RouterCore.RouterWorld) (lw2 : Runner.LegacyWorld),
      Runner.run_sync compiled (parse bytes) action comp rw2 lw2 wallclock parse_resp
        = Runner.run_sync compiled (parse bytes) action comp rw lw wallclock parse_resp := by
  have hlead := hserde bytes root hparse
  have hmagic := jsonLead_not_wasmMagic bytes hlead
  have hcomp : compiled = false := by
    cases compiled with
    | false => rfl
    | true => exact absurd (hcompile rfl) (by simp [hmagic])
  subst hcomp
  rw [hparse]
  constructor
  · cases hn : jsonMapGet responses action with
    | some v => simp [Runner.run_sync, Runner.try_mock_json, hflag, hresp, hn]
    | none => simp [Runner.run_sync, Runner.try_mock_json, hflag, hresp, hn]
  · intro rw2 lw2
    rfl

/-- Mock document fixture: flag set, one response entry for `ping`. -/
def mockRoot : Json :=
  Json.obj [("_mock_mcp_exec", .bool true),
            ("responses", Json.obj [("ping", .num 7)])]

/-- Parser fixture: recognizes byte lists headed by `{` as `mockRoot`. -/
def mockParse : List Nat → Option Json :=
  fun bs => if bs.headD 0 = 0x7B then some mockRoot else none

/-- Witness for C4's amended theorem: a one-byte JSON-headed artifact with a
`ping` response returns the mapped value. -/
theorem C4_mock_amended_witness :
    Runner.run_sync false (mockParse [0x7B]) "ping" "comp"
      idleRouterWorld idleLegacyWorld 10 (fun _ => none) = .ok (.num 7) := by
  have h := (C4_mock_amended [0x7B] mockParse mockRoot [("ping", Json.num 7)]
    "ping" "comp" false idleRouterWorld idleLegacyWorld 10 (fun _ => none)
    (by
      intro bs j hbs
      by_cases hb : bs.headD 0 = 0x7B
      · rw [hb]; rfl
      · rw [mockParse, if_neg hb] at hbs
        exact Option.noConfusion hbs)
    (fun hc => nomatch hc) rfl rfl rfl).1
  exact h.trans rfl

/-- Claim C9: in the router CLI the sandbox store's HTTP flag is
`enable_http && !list_tools`, so `--list-tools` forces it off even when
`--enable-http` is passed, and HTTP is enabled exactly for tool calls that
requested it. -/
theorem C9_list_tools_gates_http (cmd : Cli.RouterCommand) :
    (cmd.list_tools = true → Cli.invoke_router_http_enabled cmd = false) ∧
    (Cli.invoke_router_http_enabled cmd = true ↔
      (cmd.enable_http = true ∧ cmd.list_tools = false)) := by
  constructor
  · intro h
    simp [Cli.invoke_router_http_enabled, h]
  · simp [Cli.invoke_router_http_enabled, Bool.and_eq_true]

/-- Witness for C9: listing with `--enable-http` still builds the store with
HTTP disabled. -/
theorem C9_list_tools_gates_http_witness :
    Cli.invoke_router_http_enabled
      { tool := none, list_tools := true, enable_http := true } = false :=
  (C9_list_tools_gates_http
    { tool := none, list_tools := true, enable_http := true }).1 rfl

/-- Claim C10: `normalize_under_root` rejects every absolute candidate, and
every path it returns successfully starts with the canonicalized root, for
every filesystem oracle. -/
theorem C10_normalize_under_root_safe (fs : PathSafety.Fs)
    (root candidate : PathSafety.FsPath) :
    (candidate.absolute = true →
      PathSafety.normalize_under_root fs root candidate
        = .error "absolute paths are not allowed") ∧
    (∀ p, PathSafety.normalize_under_root fs root candidate = .ok p →
      ∃ rootC, fs.canonicalize root = some rootC ∧
        p.starts_with rootC = true) := by
  constructor
  · intro h
    simp [PathSafety.normalize_under_root, h]
  · intro p hp
    unfold PathSafety.normalize_under_root at hp
    split at hp
    · exact absurd hp (by simp)
    · split at hp
      · exact absurd hp (by simp)
      · rename_i rootC hcr
        split at hp
        · exact absurd hp (by simp)
        · rename_i canon hcanon
          split at hp
          · rename_i hsw
            obtain rfl : canon = p := by
              injection hp
            exact ⟨rootC, hcr, hsw⟩
          · exact absurd hp (by simp)

/-- Identity filesystem fixture: every path canonicalizes to itself. -/
def identFs : PathSafety.Fs :=
  { canonicalize := fun p => some p, pathExists := fun _ => true }

/-- Witness for C10: a relative candidate normalizes inside the root, and an
absolute candidate is rejected. -/
theorem C10_normalize_under_root_witness :
    (∃ rootC, identFs.canonicalize { absolute := true, comps := ["r"] } = some rootC ∧
      PathSafety.FsPath.starts_with { absolute := true, comps := ["r", "a"] } rootC
        = true) ∧
    PathSafety.normalize_under_root identFs { absolute := true, comps := ["r"] }
      { absolute := true, comps := ["evil"] }
      = .error "absolute paths are not allowed" := by
  constructor
  · exact (C10_normalize_under_root_safe identFs { absolute := true, comps := ["r"] }
      { absolute := false, comps := ["a"] }).2
      { absolute := true, comps := ["r", "a"] } rfl
  · exact (C10_normalize_under_root_safe identFs { absolute := true, comps := ["r"] }
      { absolute := true, comps := ["evil"] }).1 rfl

end GreenticMcp
